import Mathlib

/-
  Verification of the shuttle-connect booking core.

  The data-access layer (dataService) is embedded with the remote table made
  explicit: each operation takes the outcome of its remote round trip as an
  `Except Unit` value (or a `Bool` success flag for writes), mirroring the
  try/catch structure of the source.  The UI-level operations (booking batch
  submission, QR-scan check-in, rider cancellation) are embedded as pure
  state transformers over the bookings table.

  Timestamps are integer milliseconds.  A selected travel date (produced at
  local midnight by generateNext7Days) is represented by its calendar-day
  index d, whose midnight is d * 86400000.
-/

namespace Shuttle

/-- Booking lifecycle status (types.ts BookingStatus). -/
inductive BookingStatus where
  | BOOKED
  | WAITING
  | COMPLETED
  | CANCELLED
  | NOSHOW
deriving DecidableEq, Repr

/-- Shift tag carried on a booking (types.ts). -/
inductive Shift where
  | morning
  | night
deriving DecidableEq, Repr

/-- Travel direction (types.ts). -/
inductive Direction where
  | inbound
  | outbound
deriving DecidableEq, Repr

/-- Route time-of-day classification (types.ts RouteOption.type). -/
inductive RouteType where
  | morning
  | evening
  | night
deriving DecidableEq, Repr

/-- User role (types.ts UserRole). -/
inductive UserRole where
  | user
  | admin
  | driver
deriving DecidableEq, Repr

/-- An application user (types.ts User). -/
structure User where
  id : String
  employeeId : String
  name : String
  department : String
  phone : String
  role : UserRole
deriving DecidableEq, Repr

/-- A booking as the app sees it (types.ts Booking). -/
structure Booking where
  id : String
  userId : String
  userName : String
  routeId : String
  routeName : String
  stationId : String
  stationName : String
  timestamp : Int
  status : BookingStatus
  checkInTime : Option Int
  shift : Option Shift
  direction : Option Direction
deriving DecidableEq, Repr

/-- A row of the remote bookings table.  Column names follow the insert in
saveBooking and the row maps in getBookings/getUserBookings; `id` is assigned
by the store (the insert in saveBooking passes no id column).  Nullable text
columns are `Option String`. -/
structure BookingRow where
  id : String
  user_id : String
  user_name : Option String
  route_id : String
  route_name : Option String
  station_id : Option String
  station_name : Option String
  timestamp : Int
  status : BookingStatus
  check_in_time : Option Int
  shift : Option Shift
  direction : Option Direction
deriving DecidableEq, Repr

/-- A route as the app sees it (types.ts RouteOption, the dataService variant). -/
structure RouteOption where
  id : String
  name : String
  time : String
  type : RouteType
  description : Option String
  maxSeats : Nat
  price : Option Nat
  licensePlate : Option String
  driverPhone : Option String
deriving DecidableEq, Repr

/-- A row of the remote routes table (columns read by getRoutes). -/
structure RouteRow where
  id : String
  name : String
  time : String
  type : RouteType
  description : Option String
  max_seats : Option Nat
deriving DecidableEq, Repr

/-- A row of the remote route_details table (columns read by getRoutes). -/
structure RouteDetailRow where
  route_id : String
  license_plate : Option String
  driver_phone : Option String
deriving DecidableEq, Repr

/-- A pickup/drop-off station (types.ts Station).  Coordinates are opaque to
every verified operation; they are carried as integers here. -/
structure Station where
  id : String
  name : String
  lat : Int
  lng : Int
  description : String
deriving DecidableEq, Repr

/-- JS `x || dflt` on an optional numeric column (0 and null are falsy). -/
def jsOrNat (x : Option Nat) (dflt : Nat) : Nat :=
  match x with
  | some n => if n = 0 then dflt else n
  | none => dflt

/-- JS `x || undefined` on an optional text column (empty string and null are
falsy). -/
def jsOrUndef (x : Option String) : Option String :=
  match x with
  | some s => if s = "" then none else some s
  | none => none

/-- Modelled from the spec: the static route catalog ROUTES_DATA is imported
from `constants`, a module not among the sources.  The spec (Scenario A and
section 4.3) fixes at least route m1 (morning, departure 07:30, maxSeats 40)
and describes the catalog as the configured, nonempty route set; one
representative entry suffices for the properties below. -/
def ROUTES_DATA : List RouteOption :=
  [{ id := "m1", name := "Morning Route 1", time := "07:30",
     type := RouteType.morning, description := none, maxSeats := 40,
     price := none, licensePlate := none, driverPhone := none }]

/-- dataService.getRoutes: on a successful round trip it receives the routes
table (possibly null) and the route_details table (possibly null); a nonempty
routes table is mapped with details merged in, otherwise the static catalog is
used, with details merged onto it; any failure falls back to the static
catalog. -/
def getRoutes
    (remote : Except Unit (Option (List RouteRow) × Option (List RouteDetailRow))) :
    List RouteOption :=
  match remote with
  | Except.error _ => ROUTES_DATA
  | Except.ok (routesData, details) =>
    match routesData with
    | some rows =>
      if rows.length > 0 then
        rows.map (fun r =>
          let detail := (details.getD []).find? (fun d => d.route_id == r.id)
          { id := r.id, name := r.name, time := r.time, type := r.type,
            description := jsOrUndef r.description,
            maxSeats := jsOrNat r.max_seats 40,
            price := none,
            licensePlate := jsOrUndef (detail.bind (fun d => d.license_plate)),
            driverPhone := jsOrUndef (detail.bind (fun d => d.driver_phone)) })
      else
        ROUTES_DATA.map (fun route =>
          match (details.getD []).find? (fun d => d.route_id == route.id) with
          | some detail =>
            { route with licensePlate := jsOrUndef detail.license_plate,
                         driverPhone := jsOrUndef detail.driver_phone }
          | none => route)
    | none =>
      ROUTES_DATA.map (fun route =>
        match (details.getD []).find? (fun d => d.route_id == route.id) with
        | some detail =>
          { route with licensePlate := jsOrUndef detail.license_plate,
                       driverPhone := jsOrUndef detail.driver_phone }
        | none => route)

/-- The row map shared by getBookings, getUserBookings and
getUserActiveBooking: nullable denormalized text columns fall back to the
empty string. -/
def rowToBooking (b : BookingRow) : Booking :=
  { id := b.id, userId := b.user_id, userName := b.user_name.getD "",
    routeId := b.route_id, routeName := b.route_name.getD "",
    stationId := b.station_id.getD "", stationName := b.station_name.getD "",
    timestamp := b.timestamp, status := b.status,
    checkInTime := b.check_in_time, shift := b.shift,
    direction := b.direction }

/-- The order clause of the booking queries: timestamp descending. -/
def orderTimestampDesc (table : List BookingRow) : List BookingRow :=
  List.insertionSort (fun a b => b.timestamp ≤ a.timestamp) table

/-- dataService.getBookings: all rows, timestamp descending, mapped; empty
list on error or failure. -/
def getBookings (remote : Except Unit (List BookingRow)) : List Booking :=
  match remote with
  | Except.error _ => []
  | Except.ok table => (orderTimestampDesc table).map rowToBooking

/-- dataService.getUserBookings: rows of one user, timestamp descending,
mapped; empty list on error or failure. -/
def getUserBookings (userId : String) (remote : Except Unit (List BookingRow)) :
    List Booking :=
  match remote with
  | Except.error _ => []
  | Except.ok table =>
    (orderTimestampDesc (table.filter (fun r => r.user_id == userId))).map
      rowToBooking

/-- dataService.saveBooking: inserts one row built from the booking; the
booking's own id is not among the inserted columns (the store assigns the row
id, supplied here as freshId) and no check-in time is inserted.  Returns the
success flag and the new table; a failed insert leaves the table unchanged
and returns false. -/
def insertedRow (booking : Booking) (freshId : String) : BookingRow :=
  { id := freshId, user_id := booking.userId,
    user_name := some booking.userName, route_id := booking.routeId,
    route_name := some booking.routeName,
    station_id := some booking.stationId,
    station_name := some booking.stationName,
    timestamp := booking.timestamp, status := booking.status,
    check_in_time := none, shift := booking.shift,
    direction := booking.direction }

/-- dataService.saveBooking, continued: a successful insert appends the row
and returns true; a failed insert leaves the table unchanged and returns
false. -/
def saveBooking (booking : Booking) (freshId : String) (ok : Bool)
    (table : List BookingRow) : Bool × List BookingRow :=
  if ok then (true, table ++ [insertedRow booking freshId])
  else (false, table)

/-- The update payload of dataService.updateBookingStatus applied to one row:
the status is written unconditionally, and when the new status is COMPLETED
the check-in time column is also written with the current time. -/
def applyStatusUpdate (id : String) (status : BookingStatus) (now : Int)
    (r : BookingRow) : BookingRow :=
  if r.id == id then
    { r with status := status,
             check_in_time :=
               if status == BookingStatus.COMPLETED then some now
               else r.check_in_time }
  else r

/-- dataService.updateBookingStatus: updates every row matching the id; a
failure is swallowed silently and leaves the table unchanged. -/
def updateBookingStatus (id : String) (status : BookingStatus) (now : Int)
    (ok : Bool) (table : List BookingRow) : List BookingRow :=
  if ok then table.map (applyStatusUpdate id status now) else table

/-- dataService.getRouteSeatCount: the exact count of rows of the route whose
status is BOOKED or WAITING, over the whole table; 0 on error or failure. -/
def getRouteSeatCount (routeId : String) (remote : Except Unit (List BookingRow)) :
    Nat :=
  match remote with
  | Except.error _ => 0
  | Except.ok table =>
    (table.filter (fun r => r.route_id == routeId &&
      (r.status == BookingStatus.BOOKED || r.status == BookingStatus.WAITING))).length

/-! UI-level operations (App source). -/

/-- The time parse in confirmBooking: `selectedRoute.time.split(':').map(Number)`
destructured as hours and minutes. -/
def parseTime (time : String) : Int × Int :=
  match (time.splitOn ":").map (fun s => ((s.toNat?).getD 0 : Int)) with
  | [h, m] => (h, m)
  | _ => (0, 0)

/-- The travel timestamp of a selected date: the date is a local midnight
produced by generateNext7Days, represented by its calendar-day index, and
setHours(hours, mins, 0, 0) places the departure time on that day with
seconds and milliseconds zero. -/
def combineTimestamp (day : Int) (time : String) : Int :=
  day * 86400000 + (parseTime time).1 * 3600000 + (parseTime time).2 * 60000

/-- The smart duplicate check in confirmBooking: some existing booking of the
user lies strictly within 60000 ms of the travel timestamp and is not
cancelled. -/
def isDuplicateFor (allUserBookings : List Booking) (travelTs : Int) : Bool :=
  allUserBookings.any (fun b =>
    (b.timestamp - travelTs).natAbs < 60000 &&
    b.status != BookingStatus.CANCELLED)

/-- The new booking constructed for one accepted date in confirmBooking. -/
def newBookingFor (user : User) (route : RouteOption) (station : Station)
    (direction : Direction) (shiftTag : Option Shift) (genId : String)
    (travelTs : Int) : Booking :=
  { id := genId, userId := user.id, userName := user.name,
    routeId := route.id, routeName := route.name, stationId := station.id,
    stationName := station.name, timestamp := travelTs,
    status := BookingStatus.WAITING, checkInTime := none,
    shift := shiftTag, direction := some direction }

/-- Result of a batch submission: the created and skipped-as-duplicate counts
reported by the final alert, and the bookings table after the loop. -/
structure BatchOutcome where
  createdCount : Nat
  failCount : Nat
  table : List BookingRow
deriving DecidableEq, Repr

/-- The per-date loop of confirmBooking.  The duplicate check runs against
allUserBookings, fetched once before the loop.  `supply k` provides, for the
k-th creation attempt, the client-generated id (discarded by saveBooking),
the store-assigned row id, and whether the insert succeeds.  The created
count is incremented whenever a date passes the duplicate check, whether or
not its insert succeeds, exactly as in the source, which ignores the result
of saveBooking. -/
def confirmBookingLoop (user : User) (route : RouteOption) (station : Station)
    (direction : Direction) (shiftTag : Option Shift)
    (allUserBookings : List Booking) (supply : Nat → String × String × Bool) :
    Nat → List Int → List BookingRow → BatchOutcome
  | _, [], table => { createdCount := 0, failCount := 0, table := table }
  | k, day :: rest, table =>
    let travelTs := combineTimestamp day route.time
    if isDuplicateFor allUserBookings travelTs then
      let r := confirmBookingLoop user route station direction shiftTag
        allUserBookings supply k rest table
      { createdCount := r.createdCount, failCount := r.failCount + 1,
        table := r.table }
    else
      let ids := supply k
      let saved := saveBooking
        (newBookingFor user route station direction shiftTag ids.1 travelTs)
        ids.2.1 ids.2.2 table
      let r := confirmBookingLoop user route station direction shiftTag
        allUserBookings supply (k + 1) rest saved.2
      { createdCount := r.createdCount + 1, failCount := r.failCount,
        table := r.table }

/-- confirmBooking: fetches the user's bookings once, then processes every
selected date through the loop.  Dates are calendar-day indices of the
midnights produced by generateNext7Days. -/
def confirmBooking (user : User) (route : RouteOption) (station : Station)
    (direction : Direction) (shiftTag : Option Shift)
    (supply : Nat → String × String × Bool) (days : List Int)
    (table : List BookingRow) : BatchOutcome :=
  confirmBookingLoop user route station direction shiftTag
    (getUserBookings user.id (Except.ok table)) supply 0 days table

/-- The user-visible outcome of one QR scan. -/
inductive ScanOutcome where
  | checkedIn (userName : String)
  | alreadyStatus (status : BookingStatus)
  | notFound
deriving DecidableEq, Repr

/-- The isToday calendar-day test: two millisecond timestamps fall on the
same local day. -/
def sameDay (a b : Int) : Bool :=
  a.fdiv 86400000 == b.fdiv 86400000

/-- handleScan of the driver dashboard: the payload is looked up among the
bookings of the selected route, today, not cancelled; a WAITING booking is
checked in (status COMPLETED, check-in time stamped); any other status only
raises the informational already-status alert; an unknown payload raises the
passenger-not-found alert.  The 3-second re-scan debounce is a client-side
camera-frame filter and is not part of this state transformer. -/
def driverHandleScan (selectedRouteId : String) (payload : String) (now : Int)
    (ok : Bool) (table : List BookingRow) : ScanOutcome × List BookingRow :=
  let bookings := getBookings (Except.ok table)
  let currentBookings := bookings.filter (fun b =>
    b.routeId == selectedRouteId && sameDay b.timestamp now &&
    b.status != BookingStatus.CANCELLED)
  match currentBookings.find? (fun b => b.id == payload) with
  | some booking =>
    if booking.status == BookingStatus.WAITING then
      (ScanOutcome.checkedIn booking.userName,
        updateBookingStatus booking.id BookingStatus.COMPLETED now ok table)
    else (ScanOutcome.alreadyStatus booking.status, table)
  | none => (ScanOutcome.notFound, table)

/-- handleScan of the admin dashboard: the payload is looked up among all
bookings; a WAITING or BOOKED booking is checked in (status COMPLETED,
check-in time stamped); any other status only raises the informational
already-status alert; an unknown payload is logged and ignored. -/
def adminHandleScan (payload : String) (now : Int) (ok : Bool)
    (table : List BookingRow) : ScanOutcome × List BookingRow :=
  let bookings := getBookings (Except.ok table)
  match bookings.find? (fun b => b.id == payload) with
  | some booking =>
    if booking.status == BookingStatus.WAITING ||
        booking.status == BookingStatus.BOOKED then
      (ScanOutcome.checkedIn booking.userName,
        updateBookingStatus booking.id BookingStatus.COMPLETED now ok table)
    else (ScanOutcome.alreadyStatus booking.status, table)
  | none => (ScanOutcome.notFound, table)

/-- onConfirmCancel of the booking-history page: the rider's cancel writes
status CANCELLED through updateBookingStatus. -/
def riderCancelBooking (bookingId : String) (now : Int) (ok : Bool)
    (table : List BookingRow) : List BookingRow :=
  updateBookingStatus bookingId BookingStatus.CANCELLED now ok table

/-- One base-36 digit as the character of
Math.random().toString(36).toUpperCase(): 0-9 then A-Z. -/
def base36UpperChar (d : Fin 36) : Char :=
  if d.val < 10 then Char.ofNat (48 + d.val) else Char.ofNat (65 + (d.val - 10))

/-- The id generator of confirmBooking,
Math.random().toString(36).substr(2, 9).toUpperCase(): digits is the base-36
fractional expansion of the random number (what follows the leading zero and
point in toString(36)); substr(2, 9) keeps at most its first nine digits and
the result is uppercased.  The generator consults nothing but the random
digits; in particular it performs no lookup against existing ids. -/
def generateBookingId (digits : List (Fin 36)) : String :=
  String.mk ((digits.take 9).map base36UpperChar)

/-- The characters a generated booking id may contain: 0-9 and A-Z. -/
def idAlphabet : List Char := "0123456789ABCDEFGHIJKLMNOPQRSTUVWXYZ".data

/-- The duplicate condition of confirmBooking read directly off the bookings
table: some row of the user lies strictly within 60000 ms of the travel
timestamp and is not cancelled. -/
def duplicateAgainst (table : List BookingRow) (uid : String)
    (travelTs : Int) : Bool :=
  table.any (fun s => s.user_id == uid &&
    (s.timestamp - travelTs).natAbs < 60000 &&
    s.status != BookingStatus.CANCELLED)

/-- Two booking rows are separated when, unless one of them is cancelled,
their travel timestamps differ by at least 60000 ms. -/
def separated (b1 b2 : BookingRow) : Prop :=
  b1.status ≠ BookingStatus.CANCELLED → b2.status ≠ BookingStatus.CANCELLED →
    60000 ≤ (b1.timestamp - b2.timestamp).natAbs

instance (b1 b2 : BookingRow) : Decidable (separated b1 b2) := by
  unfold separated
  infer_instance

/-- The rows of one user in the bookings table. -/
def userRows (uid : String) (table : List BookingRow) : List BookingRow :=
  table.filter (fun s => s.user_id == uid)

/-! Concrete sample values used to instantiate the theorems below. -/

def wUser : User :=
  { id := "u1", employeeId := "1001", name := "Alice", department := "IT",
    phone := "081", role := UserRole.user }

def wStation : Station :=
  { id := "s1", name := "Station One", lat := 14, lng := 100,
    description := "east gate" }

def wRoute : RouteOption :=
  { id := "m1", name := "Morning Route 1", time := "07:30",
    type := RouteType.morning, description := none, maxSeats := 40,
    price := none, licensePlate := none, driverPhone := none }

def wSupply : Nat → String × String × Bool :=
  fun k => ("GENID", "DB" ++ toString k, true)

def wRowWaiting : BookingRow :=
  { id := "W1", user_id := "u1", user_name := some "Alice", route_id := "m1",
    route_name := some "Morning Route 1", station_id := some "s1",
    station_name := some "Station One", timestamp := 27000000,
    status := BookingStatus.WAITING, check_in_time := none, shift := none,
    direction := some Direction.inbound }

def wRowCancelled : BookingRow :=
  { id := "C1", user_id := "u1", user_name := some "Alice", route_id := "m1",
    route_name := none, station_id := none, station_name := none,
    timestamp := 27000000, status := BookingStatus.CANCELLED,
    check_in_time := some 5, shift := none, direction := none }

def wBooking : Booking :=
  { id := "X", userId := "u1", userName := "Alice", routeId := "m1",
    routeName := "Morning Route 1", stationId := "s1",
    stationName := "Station One", timestamp := 123,
    status := BookingStatus.WAITING, checkInTime := none, shift := none,
    direction := none }

/-! Helper lemmas. -/

theorem find?_eq_some_of_unique {α : Type} (p : α → Bool) :
    ∀ (l : List α) (a : α), a ∈ l → p a = true →
      (∀ x ∈ l, p x = true → x = a) → l.find? p = some a := by
  intro l
  induction l with
  | nil => intro a ha _ _; exact absurd ha (List.not_mem_nil a)
  | cons h t ih =>
    intro a ha hpa huniq
    by_cases hph : p h = true
    · have heq : h = a := huniq h (List.mem_cons_self h t) hph
      rw [List.find?_cons_of_pos _ hph, heq]
    · have hne : a ≠ h := fun hcontra => hph (hcontra ▸ hpa)
      have hat : a ∈ t := by
        rcases List.mem_cons.mp ha with h1 | h1
        · exact absurd h1 hne
        · exact h1
      rw [List.find?_cons_of_neg _ (by simpa using hph)]
      exact ih a hat hpa fun x hx => huniq x (List.mem_cons_of_mem h hx)

theorem eq_of_countP_le_one {α : Type} (p : α → Bool) :
    ∀ (l : List α), l.countP p ≤ 1 →
      ∀ a ∈ l, p a = true → ∀ b ∈ l, p b = true → a = b := by
  intro l
  induction l with
  | nil => intro _ a ha; exact absurd ha (List.not_mem_nil a)
  | cons h t ih =>
    intro hle a ha hpa b hb hpb
    by_cases hph : p h = true
    · have hcount : t.countP p = 0 := by
        rw [List.countP_cons_of_pos _ _ hph] at hle
        omega
      have hnone : ∀ x ∈ t, ¬ p x = true := List.countP_eq_zero.mp hcount
      have haeq : a = h := by
        rcases List.mem_cons.mp ha with h1 | h1
        · exact h1
        · exact absurd hpa (hnone a h1)
      have hbeq : b = h := by
        rcases List.mem_cons.mp hb with h1 | h1
        · exact h1
        · exact absurd hpb (hnone b h1)
      rw [haeq, hbeq]
    · have hle' : t.countP p ≤ 1 := by
        rw [List.countP_cons_of_neg _ _ (by simpa using hph)] at hle
        exact hle
      have hat : a ∈ t := by
        rcases List.mem_cons.mp ha with h1 | h1
        · exact absurd (h1 ▸ hpa) hph
        · exact h1
      have hbt : b ∈ t := by
        rcases List.mem_cons.mp hb with h1 | h1
        · exact absurd (h1 ▸ hpb) hph
        · exact h1
      exact ih hle' a hat hpa b hbt hpb

theorem rowToBooking_id (r : BookingRow) : (rowToBooking r).id = r.id := rfl

theorem mem_getBookings {table : List BookingRow} {r : BookingRow} (h : r ∈ table) :
    rowToBooking r ∈ getBookings (Except.ok table) := by
  unfold getBookings orderTimestampDesc
  exact List.mem_map_of_mem rowToBooking ((List.mem_insertionSort _).mpr h)

theorem of_mem_getBookings {table : List BookingRow} {b : Booking}
    (h : b ∈ getBookings (Except.ok table)) :
    ∃ r, r ∈ table ∧ b = rowToBooking r := by
  unfold getBookings orderTimestampDesc at h
  rcases List.mem_map.mp h with ⟨r, hr, hb⟩
  exact ⟨r, (List.mem_insertionSort _).mp hr, hb.symm⟩

theorem mem_getUserBookings {table : List BookingRow} {r : BookingRow}
    {uid : String} (h : r ∈ table) (hu : r.user_id = uid) :
    rowToBooking r ∈ getUserBookings uid (Except.ok table) := by
  unfold getUserBookings orderTimestampDesc
  refine List.mem_map_of_mem rowToBooking ((List.mem_insertionSort _).mpr ?_)
  exact List.mem_filter.mpr ⟨h, by simp [hu]⟩

theorem of_mem_getUserBookings {table : List BookingRow} {b : Booking}
    {uid : String} (h : b ∈ getUserBookings uid (Except.ok table)) :
    ∃ r, r ∈ table ∧ r.user_id = uid ∧ b = rowToBooking r := by
  unfold getUserBookings orderTimestampDesc at h
  rcases List.mem_map.mp h with ⟨r, hr, hb⟩
  have hr' := (List.mem_insertionSort _).mp hr
  rcases List.mem_filter.mp hr' with ⟨hmem, hcond⟩
  exact ⟨r, hmem, by simpa using hcond, hb.symm⟩

theorem applyStatusUpdate_id (id : String) (st : BookingStatus) (now : Int)
    (r : BookingRow) : (applyStatusUpdate id st now r).id = r.id := by
  unfold applyStatusUpdate
  by_cases h : r.id == id <;> simp [h]

theorem applyStatusUpdate_of_ne (id : String) (st : BookingStatus) (now : Int)
    {r : BookingRow} (h : r.id ≠ id) : applyStatusUpdate id st now r = r := by
  unfold applyStatusUpdate
  simp [h]

theorem applyStatusUpdate_of_eq (id : String) (st : BookingStatus) (now : Int)
    {r : BookingRow} (h : r.id = id) :
    applyStatusUpdate id st now r =
      { r with status := st,
               check_in_time :=
                 if st == BookingStatus.COMPLETED then some now
                 else r.check_in_time } := by
  unfold applyStatusUpdate
  simp [h]

theorem mem_updateBookingStatus {table : List BookingRow} {r : BookingRow}
    (id : String) (st : BookingStatus) (now : Int) (h : r ∈ table) :
    applyStatusUpdate id st now r ∈ updateBookingStatus id st now true table := by
  unfold updateBookingStatus
  rw [if_pos rfl]
  exact List.mem_map_of_mem (applyStatusUpdate id st now) h

theorem of_mem_updateBookingStatus {table : List BookingRow} {s : BookingRow}
    {id : String} {st : BookingStatus} {now : Int}
    (h : s ∈ updateBookingStatus id st now true table) :
    ∃ r, r ∈ table ∧ s = applyStatusUpdate id st now r := by
  unfold updateBookingStatus at h
  rw [if_pos rfl] at h
  rcases List.mem_map.mp h with ⟨r, hr, hs⟩
  exact ⟨r, hr, hs.symm⟩

theorem countP_id_updateBookingStatus (table : List BookingRow) (id : String)
    (st : BookingStatus) (now : Int) (key : String) :
    (updateBookingStatus id st now true table).countP (fun s => s.id == key) =
      table.countP (fun s => s.id == key) := by
  unfold updateBookingStatus
  rw [if_pos rfl, List.countP_map]
  apply List.countP_congr
  intro r _
  simp [Function.comp, applyStatusUpdate_id]

theorem rowToBooking_status (r : BookingRow) :
    (rowToBooking r).status = r.status := rfl

theorem rowToBooking_timestamp (r : BookingRow) :
    (rowToBooking r).timestamp = r.timestamp := rfl

theorem rowToBooking_routeId (r : BookingRow) :
    (rowToBooking r).routeId = r.route_id := rfl

theorem rowToBooking_userName (r : BookingRow) :
    (rowToBooking r).userName = r.user_name.getD "" := rfl

theorem map_id_of_fix {α : Type} (f : α → α) :
    ∀ l : List α, (∀ x ∈ l, f x = x) → l.map f = l := by
  intro l
  induction l with
  | nil => intro _; rfl
  | cons h t ih =>
    intro hfix
    have hh : f h = h := hfix h (List.mem_cons_self h t)
    have ht : t.map f = t := ih fun x hx => hfix x (List.mem_cons_of_mem h hx)
    simp [hh, ht]

theorem adminScan_find {table : List BookingRow} {r : BookingRow}
    (hmem : r ∈ table)
    (hkey : table.countP (fun s => s.id == r.id) = 1) :
    (getBookings (Except.ok table)).find? (fun b => b.id == r.id) =
      some (rowToBooking r) := by
  apply find?_eq_some_of_unique
  · exact mem_getBookings hmem
  · simp [rowToBooking_id]
  · intro x hx hpx
    rcases of_mem_getBookings hx with ⟨s, hs, rfl⟩
    have hsid : s.id = r.id := by simpa [rowToBooking_id] using hpx
    have heq : s = r :=
      eq_of_countP_le_one _ table (le_of_eq hkey) s hs (by simp [hsid]) r hmem
        (by simp)
    rw [heq]

theorem filtered_find {table : List BookingRow} {r : BookingRow}
    (q : Booking → Bool) (hmem : r ∈ table)
    (hkey : table.countP (fun s => s.id == r.id) = 1)
    (hq : q (rowToBooking r) = true) :
    ((getBookings (Except.ok table)).filter q).find? (fun b => b.id == r.id) =
      some (rowToBooking r) := by
  apply find?_eq_some_of_unique
  · exact List.mem_filter.mpr ⟨mem_getBookings hmem, hq⟩
  · simp [rowToBooking_id]
  · intro x hx hpx
    rcases of_mem_getBookings (List.mem_filter.mp hx).1 with ⟨s, hs, rfl⟩
    have hsid : s.id = r.id := by simpa [rowToBooking_id] using hpx
    have heq : s = r :=
      eq_of_countP_le_one _ table (le_of_eq hkey) s hs (by simp [hsid]) r hmem
        (by simp)
    rw [heq]

/-! Claim theorems. -/

/-- C2: getRouteSeatCount returns exactly the number of bookings referencing
the route whose status is BOOKED or WAITING, over the whole table with no day
filter; bookings with status COMPLETED, CANCELLED or NOSHOW are not
counted. -/
theorem getRouteSeatCount_active_count (routeId : String)
    (table : List BookingRow) :
    getRouteSeatCount routeId (Except.ok table) =
      table.countP (fun r => r.route_id == routeId &&
        !(r.status == BookingStatus.COMPLETED ||
          r.status == BookingStatus.CANCELLED ||
          r.status == BookingStatus.NOSHOW)) := by
  have hdef : getRouteSeatCount routeId (Except.ok table) =
      (table.filter (fun r => r.route_id == routeId &&
        (r.status == BookingStatus.BOOKED ||
         r.status == BookingStatus.WAITING))).length := rfl
  rw [hdef, ← List.countP_eq_length_filter]
  apply List.countP_congr
  intro r _
  cases hst : r.status <;> simp [hst]

/-- C8 counterexample: on remote persistence failure the route read does not
degrade to the empty list; it returns the static catalog, which is
nonempty. -/
theorem getRoutes_failure_fallback_nonempty :
    getRoutes (Except.error ()) = ROUTES_DATA ∧
    getRoutes (Except.error ()) ≠ ([] : List RouteOption) := by
  exact ⟨rfl, by decide⟩

/-- C8 (amended): on remote persistence failure no data-access operation
propagates the error: the booking reads return the empty list, the seat count
returns 0, saveBooking returns false leaving the table unchanged,
updateBookingStatus silently leaves the table unchanged, and the catalog read
getRoutes falls back to the static catalog (not the empty list). -/
theorem persistence_failure_defaults (uid rid bid freshId : String)
    (st : BookingStatus) (now : Int) (booking : Booking)
    (table : List BookingRow) :
    getBookings (Except.error ()) = [] ∧
    getUserBookings uid (Except.error ()) = [] ∧
    getRouteSeatCount rid (Except.error ()) = 0 ∧
    saveBooking booking freshId false table = (false, table) ∧
    updateBookingStatus bid st now false table = table ∧
    getRoutes (Except.error ()) = ROUTES_DATA := by
  refine ⟨rfl, rfl, rfl, rfl, rfl, rfl⟩

/-- C9: updateBookingStatus performs no transition validation: whatever the
row's current status (terminal ones included), the requested status is
written unconditionally, and a COMPLETED request always re-stamps the stored
check-in time to the current time; no other column of the row changes. -/
theorem updateBookingStatus_no_validation (table : List BookingRow)
    (id : String) (st : BookingStatus) (now : Int) (r : BookingRow)
    (hmem : r ∈ table) (hid : r.id = id) :
    ∃ s ∈ updateBookingStatus id st now true table,
      s.id = r.id ∧ s.status = st ∧
      s.check_in_time = (if st = BookingStatus.COMPLETED then some now
        else r.check_in_time) ∧
      s.timestamp = r.timestamp ∧ s.user_id = r.user_id ∧
      s.route_id = r.route_id := by
  refine ⟨applyStatusUpdate id st now r,
    mem_updateBookingStatus id st now hmem, ?_⟩
  rw [applyStatusUpdate_of_eq id st now hid]
  refine ⟨rfl, rfl, ?_, rfl, rfl, rfl⟩
  by_cases h : st = BookingStatus.COMPLETED <;> simp [h]

/-- C10: a generated booking identifier has at most nine characters, every
one a digit or an uppercase letter; the generator is a pure function of the
random base-36 fraction and consults no existing identifiers. -/
theorem generateBookingId_charset_length (digits : List (Fin 36)) :
    (generateBookingId digits).length ≤ 9 ∧
    ∀ c ∈ (generateBookingId digits).data, c ∈ idAlphabet := by
  constructor
  · show (String.mk ((digits.take 9).map base36UpperChar)).length ≤ 9
    have hlen : (String.mk ((digits.take 9).map base36UpperChar)).length =
        ((digits.take 9).map base36UpperChar).length := rfl
    rw [hlen, List.length_map]
    exact List.length_take_le 9 digits
  · intro c hc
    have hc' : c ∈ (digits.take 9).map base36UpperChar := hc
    rcases List.mem_map.mp hc' with ⟨d, hd, rfl⟩
    clear hc hc' hd
    revert d
    decide

theorem updateBookingStatus_true (id : String) (st : BookingStatus) (now : Int)
    (table : List BookingRow) :
    updateBookingStatus id st now true table =
      table.map (applyStatusUpdate id st now) := by
  unfold updateBookingStatus
  rw [if_pos rfl]

theorem getRouteSeatCount_ok (rid : String) (t : List BookingRow) :
    getRouteSeatCount rid (Except.ok t) =
      t.countP (fun r => r.route_id == rid &&
        (r.status == BookingStatus.BOOKED ||
         r.status == BookingStatus.WAITING)) := by
  have hdef : getRouteSeatCount rid (Except.ok t) =
      (t.filter (fun r => r.route_id == rid &&
        (r.status == BookingStatus.BOOKED ||
         r.status == BookingStatus.WAITING))).length := rfl
  rw [hdef, ← List.countP_eq_length_filter]

theorem countP_cancel_core (id rid : String) (now : Int) :
    ∀ tl : List BookingRow,
      tl.countP (fun s => s.id == id) = 1 →
      (∀ s ∈ tl, s.id = id → s.route_id = rid ∧
        (s.status = BookingStatus.BOOKED ∨ s.status = BookingStatus.WAITING)) →
      tl.countP ((fun r => r.route_id == rid &&
          (r.status == BookingStatus.BOOKED ||
           r.status == BookingStatus.WAITING)) ∘
        applyStatusUpdate id BookingStatus.CANCELLED now) + 1 =
      tl.countP (fun r => r.route_id == rid &&
        (r.status == BookingStatus.BOOKED ||
         r.status == BookingStatus.WAITING)) := by
  intro tl
  induction tl with
  | nil => intro h _; simp at h
  | cons hd tl ih =>
    intro hcount hprop
    by_cases hid : hd.id = id
    · have hc0 : tl.countP (fun s => s.id == id) = 0 := by
        rw [List.countP_cons_of_pos _ _ (by simp [hid])] at hcount
        omega
      have htl : ∀ x ∈ tl, ¬ x.id = id := by
        intro x hx
        have hnx := List.countP_eq_zero.mp hc0 x hx
        simpa using hnx
      have hhd := hprop hd (List.mem_cons_self hd tl) hid
      have hph : (hd.route_id == rid &&
          (hd.status == BookingStatus.BOOKED ||
           hd.status == BookingStatus.WAITING)) = true := by
        rcases hhd.2 with h | h <;> simp [hhd.1, h]
      have hpfh : (((fun r => r.route_id == rid &&
          (r.status == BookingStatus.BOOKED ||
           r.status == BookingStatus.WAITING)) ∘
          applyStatusUpdate id BookingStatus.CANCELLED now) hd) = false := by
        show ((applyStatusUpdate id BookingStatus.CANCELLED now hd).route_id == rid &&
          ((applyStatusUpdate id BookingStatus.CANCELLED now hd).status == BookingStatus.BOOKED ||
           (applyStatusUpdate id BookingStatus.CANCELLED now hd).status == BookingStatus.WAITING)) = false
        rw [applyStatusUpdate_of_eq _ _ _ hid]
        simp
      have heqtl : tl.countP ((fun r => r.route_id == rid &&
          (r.status == BookingStatus.BOOKED ||
           r.status == BookingStatus.WAITING)) ∘
          applyStatusUpdate id BookingStatus.CANCELLED now) =
          tl.countP (fun r => r.route_id == rid &&
            (r.status == BookingStatus.BOOKED ||
             r.status == BookingStatus.WAITING)) := by
        apply List.countP_congr
        intro x hx
        have hfix : applyStatusUpdate id BookingStatus.CANCELLED now x = x :=
          applyStatusUpdate_of_ne _ _ _ (htl x hx)
        simp [Function.comp, hfix]
      simp only [List.countP_cons, Function.comp] at heqtl hpfh ⊢
      simp [hph, hpfh]
      omega
    · have hcount' : tl.countP (fun s => s.id == id) = 1 := by
        rw [List.countP_cons_of_neg _ _ (by simp [hid])] at hcount
        exact hcount
      have hprop' : ∀ s ∈ tl, s.id = id → s.route_id = rid ∧
          (s.status = BookingStatus.BOOKED ∨ s.status = BookingStatus.WAITING) :=
        fun s hs => hprop s (List.mem_cons_of_mem hd hs)
      have hfixhd : applyStatusUpdate id BookingStatus.CANCELLED now hd = hd :=
        applyStatusUpdate_of_ne _ _ _ hid
      have ihh := ih hcount' hprop'
      simp only [List.countP_cons, Function.comp] at ihh ⊢
      simp only [hfixhd]
      omega

/-- C3 counterexample: the claim fails on the driver path for a BOOKED
booking.  A booking of the selected route m1, today, with status BOOKED, is
not transitioned to COMPLETED by the driver scan: only the informational
already-BOOKED alert is raised and the table is unchanged. -/
theorem driver_scan_booked_no_transition :
    driverHandleScan "m1" "QR1" 27000000 true
        [⟨"QR1", "u1", some "Alice", "m1", some "Morning Route 1", some "s1",
          some "Station One", 27000000, BookingStatus.BOOKED, none, none, none⟩] =
      (ScanOutcome.alreadyStatus BookingStatus.BOOKED,
        [⟨"QR1", "u1", some "Alice", "m1", some "Morning Route 1", some "s1",
          some "Station One", 27000000, BookingStatus.BOOKED, none, none, none⟩]) := by
  decide

/-- C3 (amended): for a scanned payload matching booking row r, the driver
path transitions only a WAITING booking to COMPLETED and stamps the check-in
time; every other status, BOOKED included, only raises the informational
already-status alert with no state change.  The admin path transitions
WAITING and BOOKED bookings the same way and raises the informational alert,
with no state change, for the terminal statuses. -/
theorem scan_transition_behavior (selectedRouteId : String)
    (table : List BookingRow) (r : BookingRow) (now : Int)
    (hmem : r ∈ table) (hkey : table.countP (fun s => s.id == r.id) = 1) :
    (r.route_id = selectedRouteId → sameDay r.timestamp now = true →
      r.status ≠ BookingStatus.CANCELLED →
      ((r.status = BookingStatus.WAITING →
        (driverHandleScan selectedRouteId r.id now true table).1 =
          ScanOutcome.checkedIn (r.user_name.getD "") ∧
        ∃ s ∈ (driverHandleScan selectedRouteId r.id now true table).2,
          s.id = r.id ∧ s.status = BookingStatus.COMPLETED ∧
          s.check_in_time = some now) ∧
       (r.status ≠ BookingStatus.WAITING →
        driverHandleScan selectedRouteId r.id now true table =
          (ScanOutcome.alreadyStatus r.status, table)))) ∧
    ((r.status = BookingStatus.WAITING ∨ r.status = BookingStatus.BOOKED →
      (adminHandleScan r.id now true table).1 =
        ScanOutcome.checkedIn (r.user_name.getD "") ∧
      ∃ s ∈ (adminHandleScan r.id now true table).2,
        s.id = r.id ∧ s.status = BookingStatus.COMPLETED ∧
        s.check_in_time = some now) ∧
     (r.status = BookingStatus.COMPLETED ∨ r.status = BookingStatus.CANCELLED ∨
      r.status = BookingStatus.NOSHOW →
      adminHandleScan r.id now true table =
        (ScanOutcome.alreadyStatus r.status, table))) := by
  have hexu : ∃ s ∈ updateBookingStatus r.id BookingStatus.COMPLETED now true table,
      s.id = r.id ∧ s.status = BookingStatus.COMPLETED ∧
      s.check_in_time = some now := by
    refine ⟨applyStatusUpdate r.id BookingStatus.COMPLETED now r,
      mem_updateBookingStatus _ _ _ hmem, ?_, ?_, ?_⟩
    · exact applyStatusUpdate_id _ _ _ r
    · rw [applyStatusUpdate_of_eq _ _ _ rfl]
    · rw [applyStatusUpdate_of_eq _ _ _ rfl]
      simp
  constructor
  · intro hroute hday hnc
    have hq : (fun b => b.routeId == selectedRouteId && sameDay b.timestamp now &&
        b.status != BookingStatus.CANCELLED) (rowToBooking r) = true := by
      simp [rowToBooking_routeId, rowToBooking_timestamp, rowToBooking_status,
        hroute, hday, hnc]
    have hfind := filtered_find (fun b => b.routeId == selectedRouteId &&
      sameDay b.timestamp now && b.status != BookingStatus.CANCELLED) hmem hkey hq
    constructor
    · intro hw
      have hscan : driverHandleScan selectedRouteId r.id now true table =
          (ScanOutcome.checkedIn (r.user_name.getD ""),
            updateBookingStatus r.id BookingStatus.COMPLETED now true table) := by
        simp only [driverHandleScan, hfind]
        simp [rowToBooking_status, rowToBooking_userName, rowToBooking_id, hw]
      rw [hscan]
      exact ⟨rfl, hexu⟩
    · intro hnw
      have hcond : ((rowToBooking r).status == BookingStatus.WAITING) = false := by
        simp [rowToBooking_status, hnw]
      simp only [driverHandleScan, hfind]
      simp [hcond, rowToBooking_status]
      exact hnw
  · have hfind := adminScan_find hmem hkey
    constructor
    · intro hst
      have hcond : ((rowToBooking r).status == BookingStatus.WAITING ||
          (rowToBooking r).status == BookingStatus.BOOKED) = true := by
        rcases hst with h | h <;> simp [rowToBooking_status, h]
      have hscan : adminHandleScan r.id now true table =
          (ScanOutcome.checkedIn (r.user_name.getD ""),
            updateBookingStatus r.id BookingStatus.COMPLETED now true table) := by
        simp only [adminHandleScan, hfind]
        simp [hcond, rowToBooking_userName, rowToBooking_id]
      rw [hscan]
      exact ⟨rfl, hexu⟩
    · intro hterm
      have hcond : ((rowToBooking r).status == BookingStatus.WAITING ||
          (rowToBooking r).status == BookingStatus.BOOKED) = false := by
        rcases hterm with h | h | h <;> simp [rowToBooking_status, h]
      simp only [adminHandleScan, hfind]
      simp [hcond, rowToBooking_status]
      rcases hterm with h | h | h <;> simp [h]

/-- C4: the check-in transition is idempotent at the scan level: after a
first admin scan checks a WAITING or BOOKED booking in, a second scan of the
same payload changes nothing — the table is untouched, the informational
already-COMPLETED alert is raised, and the stored check-in time remains the
one stamped by the first scan. -/
theorem checkin_idempotent (table : List BookingRow) (r : BookingRow)
    (now1 now2 : Int) (hmem : r ∈ table)
    (hkey : table.countP (fun s => s.id == r.id) = 1)
    (hst : r.status = BookingStatus.WAITING ∨ r.status = BookingStatus.BOOKED) :
    (adminHandleScan r.id now2 true (adminHandleScan r.id now1 true table).2).2 =
      (adminHandleScan r.id now1 true table).2 ∧
    (adminHandleScan r.id now2 true (adminHandleScan r.id now1 true table).2).1 =
      ScanOutcome.alreadyStatus BookingStatus.COMPLETED ∧
    ∃ s ∈ (adminHandleScan r.id now1 true table).2,
      s.id = r.id ∧ s.status = BookingStatus.COMPLETED ∧
      s.check_in_time = some now1 := by
  have hfind := adminScan_find hmem hkey
  have hcond : ((rowToBooking r).status == BookingStatus.WAITING ||
      (rowToBooking r).status == BookingStatus.BOOKED) = true := by
    rcases hst with h | h <;> simp [rowToBooking_status, h]
  have hscan1 : adminHandleScan r.id now1 true table =
      (ScanOutcome.checkedIn (r.user_name.getD ""),
        updateBookingStatus r.id BookingStatus.COMPLETED now1 true table) := by
    simp only [adminHandleScan, hfind]
    simp [hcond, rowToBooking_userName, rowToBooking_id]
  have hr1mem : applyStatusUpdate r.id BookingStatus.COMPLETED now1 r ∈
      updateBookingStatus r.id BookingStatus.COMPLETED now1 true table :=
    mem_updateBookingStatus _ _ _ hmem
  have hr1id : (applyStatusUpdate r.id BookingStatus.COMPLETED now1 r).id = r.id :=
    applyStatusUpdate_id _ _ _ r
  have hkey1 : (updateBookingStatus r.id BookingStatus.COMPLETED now1 true
      table).countP
      (fun s => s.id ==
        (applyStatusUpdate r.id BookingStatus.COMPLETED now1 r).id) = 1 := by
    rw [hr1id, countP_id_updateBookingStatus]
    exact hkey
  have hfind2 := adminScan_find hr1mem hkey1
  rw [hr1id] at hfind2
  have hr1status : (applyStatusUpdate r.id BookingStatus.COMPLETED now1 r).status =
      BookingStatus.COMPLETED := by
    rw [applyStatusUpdate_of_eq _ _ _ rfl]
  have hcond2 : ((rowToBooking
      (applyStatusUpdate r.id BookingStatus.COMPLETED now1 r)).status ==
        BookingStatus.WAITING ||
      (rowToBooking
        (applyStatusUpdate r.id BookingStatus.COMPLETED now1 r)).status ==
        BookingStatus.BOOKED) = false := by
    simp [rowToBooking_status, hr1status]
  have hscan2 : adminHandleScan r.id now2 true
      (updateBookingStatus r.id BookingStatus.COMPLETED now1 true table) =
      (ScanOutcome.alreadyStatus BookingStatus.COMPLETED,
        updateBookingStatus r.id BookingStatus.COMPLETED now1 true table) := by
    simp only [adminHandleScan, hfind2]
    simp [hcond2, rowToBooking_status, hr1status]
  have h2 : (adminHandleScan r.id now1 true table).2 =
      updateBookingStatus r.id BookingStatus.COMPLETED now1 true table := by
    rw [hscan1]
  refine ⟨?_, ?_, ?_⟩
  · rw [h2, hscan2]
  · rw [h2, hscan2]
  · rw [h2]
    refine ⟨applyStatusUpdate r.id BookingStatus.COMPLETED now1 r, hr1mem,
      hr1id, hr1status, ?_⟩
    rw [applyStatusUpdate_of_eq _ _ _ rfl]
    simp

/-- C7: a rider's cancel of a WAITING (or BOOKED) booking sets its status to
CANCELLED; afterwards the booking no longer counts in getRouteSeatCount for
its route (the count drops by exactly one), yet it still appears in the
rider's getUserBookings history. -/
theorem rider_cancel_spec (table : List BookingRow) (r : BookingRow) (now : Int)
    (hmem : r ∈ table) (hkey : table.countP (fun s => s.id == r.id) = 1)
    (hst : r.status = BookingStatus.WAITING ∨ r.status = BookingStatus.BOOKED) :
    (∀ s ∈ riderCancelBooking r.id now true table,
      s.id = r.id → s.status = BookingStatus.CANCELLED) ∧
    getRouteSeatCount r.route_id
        (Except.ok (riderCancelBooking r.id now true table)) + 1 =
      getRouteSeatCount r.route_id (Except.ok table) ∧
    ∃ b ∈ getUserBookings r.user_id
        (Except.ok (riderCancelBooking r.id now true table)),
      b.id = r.id ∧ b.status = BookingStatus.CANCELLED := by
  have hcancel : riderCancelBooking r.id now true table =
      updateBookingStatus r.id BookingStatus.CANCELLED now true table := rfl
  refine ⟨?_, ?_, ?_⟩
  · intro s hs hsid
    rw [hcancel] at hs
    rcases of_mem_updateBookingStatus hs with ⟨x, hx, rfl⟩
    rw [applyStatusUpdate_id] at hsid
    have hxr : x = r :=
      eq_of_countP_le_one _ table (le_of_eq hkey) x hx (by simp [hsid]) r hmem
        (by simp)
    subst hxr
    rw [applyStatusUpdate_of_eq _ _ _ hsid]
  · rw [hcancel, updateBookingStatus_true, getRouteSeatCount_ok,
      getRouteSeatCount_ok, List.countP_map]
    apply countP_cancel_core
    · exact hkey
    · intro s hs hsid
      have hsr : s = r :=
        eq_of_countP_le_one _ table (le_of_eq hkey) s hs (by simp [hsid]) r hmem
          (by simp)
      subst hsr
      exact ⟨rfl, Or.symm hst⟩
  · rw [hcancel]
    refine ⟨rowToBooking (applyStatusUpdate r.id BookingStatus.CANCELLED now r),
      ?_, ?_, ?_⟩
    · apply mem_getUserBookings (mem_updateBookingStatus _ _ _ hmem)
      rw [applyStatusUpdate_of_eq _ _ _ rfl]
    · rw [rowToBooking_id, applyStatusUpdate_id]
    · rw [rowToBooking_status, applyStatusUpdate_of_eq _ _ _ rfl]

theorem bool_eq_of_iff {a b : Bool} (h : a = true ↔ b = true) : a = b := by
  cases a <;> cases b <;> simp_all

/-- The duplicate check of confirmBooking, which runs over the fetched
getUserBookings list, agrees with the same condition read directly off the
bookings table. -/
theorem isDuplicateFor_eq (uid : String) (table : List BookingRow) (ts : Int) :
    isDuplicateFor (getUserBookings uid (Except.ok table)) ts =
      duplicateAgainst table uid ts := by
  apply bool_eq_of_iff
  unfold isDuplicateFor duplicateAgainst
  simp only [List.any_eq_true]
  constructor
  · rintro ⟨b, hb, hp⟩
    rcases of_mem_getUserBookings hb with ⟨s, hs, hsu, rfl⟩
    refine ⟨s, hs, ?_⟩
    simp only [rowToBooking_timestamp, rowToBooking_status] at hp
    simp only [Bool.and_eq_true] at hp ⊢
    exact ⟨⟨by simp [hsu], hp.1⟩, hp.2⟩
  · rintro ⟨s, hs, hp⟩
    simp only [Bool.and_eq_true] at hp
    have hsu : s.user_id = uid := by simpa using hp.1.1
    refine ⟨rowToBooking s, mem_getUserBookings hs hsu, ?_⟩
    simp only [rowToBooking_timestamp, rowToBooking_status, Bool.and_eq_true]
    exact ⟨hp.1.2, hp.2⟩

/-- C5 counterexample: the claimed round trip fails when the lookup key is
the saved booking's own id.  saveBooking does not persist the
client-generated id (the store assigns the row id), so after a successful
insert the fetched table contains no record with the saved booking's id. -/
theorem saveBooking_roundtrip_id_lost :
    (saveBooking
        ⟨"X", "u1", "Alice", "m1", "Morning Route 1", "s1", "Station One",
          123, BookingStatus.WAITING, none, none, none⟩ "B1" true []).1 = true ∧
    (getBookings (Except.ok
        (saveBooking
          ⟨"X", "u1", "Alice", "m1", "Morning Route 1", "s1", "Station One",
            123, BookingStatus.WAITING, none, none, none⟩ "B1" true []).2)).find?
      (fun x => x.id == "X") = none := by
  exact ⟨rfl, by decide⟩

/-- C5 (amended): saveBooking discards the booking's client-generated id and
the stored row carries the store-assigned id; looking the stored bookings up
by that store-assigned id returns a record with identical userId/userName,
routeId/routeName and stationId/stationName denormalized fields. -/
theorem saveBooking_roundtrip_fields (booking : Booking) (freshId : String)
    (table : List BookingRow) (hfresh : ∀ x ∈ table, x.id ≠ freshId) :
    ∃ b, (getBookings (Except.ok
        (saveBooking booking freshId true table).2)).find?
          (fun x => x.id == freshId) = some b ∧
      b.userId = booking.userId ∧ b.userName = booking.userName ∧
      b.routeId = booking.routeId ∧ b.routeName = booking.routeName ∧
      b.stationId = booking.stationId ∧ b.stationName = booking.stationName := by
  have hsave : (saveBooking booking freshId true table).2 =
      table ++ [insertedRow booking freshId] := by
    unfold saveBooking
    rw [if_pos rfl]
  refine ⟨rowToBooking (insertedRow booking freshId), ?_, rfl, rfl, rfl, rfl,
    rfl, rfl⟩
  rw [hsave]
  apply find?_eq_some_of_unique
  · exact mem_getBookings (List.mem_append.mpr (Or.inr (List.mem_singleton.mpr rfl)))
  · simp [rowToBooking_id, insertedRow]
  · intro x hx hpx
    rcases of_mem_getBookings hx with ⟨s, hs, rfl⟩
    have hsid : s.id = freshId := by simpa [rowToBooking_id] using hpx
    rcases List.mem_append.mp hs with hs1 | hs2
    · exact absurd hsid (hfresh s hs1)
    · rw [List.mem_singleton.mp hs2]

theorem countP_self_add_not {α : Type} (p : α → Bool) :
    ∀ l : List α, l.countP p + l.countP (fun a => !(p a)) = l.length := by
  intro l
  induction l with
  | nil => rfl
  | cons h t ih =>
    by_cases hp : p h = true <;>
      simp [List.countP_cons, hp] <;> omega

theorem confirmBookingLoop_counts (user : User) (route : RouteOption)
    (station : Station) (direction : Direction) (shiftTag : Option Shift)
    (snapshot : List Booking) (supply : Nat → String × String × Bool) :
    ∀ (days : List Int) (k : Nat) (table : List BookingRow),
      (confirmBookingLoop user route station direction shiftTag snapshot supply
          k days table).failCount =
        days.countP (fun d =>
          isDuplicateFor snapshot (combineTimestamp d route.time)) ∧
      (confirmBookingLoop user route station direction shiftTag snapshot supply
          k days table).createdCount =
        days.countP (fun d =>
          !(isDuplicateFor snapshot (combineTimestamp d route.time))) := by
  intro days
  induction days with
  | nil => intro k table; simp [confirmBookingLoop]
  | cons d rest ih =>
    intro k table
    by_cases hdup : isDuplicateFor snapshot (combineTimestamp d route.time) = true
    · have ihh := ih k table
      simp only [confirmBookingLoop, hdup, if_true, List.countP_cons]
      constructor
      · simp [hdup, ihh.1]
      · simp [hdup, ihh.2]
    · have hdup' : isDuplicateFor snapshot (combineTimestamp d route.time) = false :=
        Bool.not_eq_true _ ▸ Bool.eq_false_iff.mpr hdup
      have ihh := ih (k + 1) (saveBooking
        (newBookingFor user route station direction shiftTag (supply k).1
          (combineTimestamp d route.time)) (supply k).2.1 (supply k).2.2 table).2
      simp only [confirmBookingLoop, hdup', List.countP_cons]
      constructor
      · simp [hdup', ihh.1]
      · simp [hdup', ihh.2]

theorem confirmBookingLoop_table (user : User) (route : RouteOption)
    (station : Station) (direction : Direction) (shiftTag : Option Shift)
    (snapshot : List Booking) (supply : Nat → String × String × Bool) :
    ∀ (days : List Int) (k : Nat) (table : List BookingRow),
      ∃ newRows,
        (confirmBookingLoop user route station direction shiftTag snapshot
            supply k days table).table = table ++ newRows ∧
        ∀ row ∈ newRows, row.user_id = user.id ∧
          row.user_name = some user.name ∧
          row.route_id = route.id ∧
          row.route_name = some route.name ∧
          row.station_id = some station.id ∧
          row.station_name = some station.name ∧
          row.status = BookingStatus.WAITING ∧
          row.check_in_time = none ∧
          ∃ d ∈ days,
            row.timestamp = combineTimestamp d route.time ∧
            isDuplicateFor snapshot (combineTimestamp d route.time) = false := by
  intro days
  induction days with
  | nil =>
    intro k table
    exact ⟨[], by simp [confirmBookingLoop], by simp⟩
  | cons d rest ih =>
    intro k table
    by_cases hdup : isDuplicateFor snapshot (combineTimestamp d route.time) = true
    · rcases ih k table with ⟨newRows, htab, hprop⟩
      refine ⟨newRows, ?_, ?_⟩
      · simp only [confirmBookingLoop, hdup, if_true]
        exact htab
      · intro row hrow
        have h := hprop row hrow
        rcases h.2.2.2.2.2.2.2.2 with ⟨d2, hd2, hts⟩
        exact ⟨h.1, h.2.1, h.2.2.1, h.2.2.2.1, h.2.2.2.2.1, h.2.2.2.2.2.1,
          h.2.2.2.2.2.2.1, h.2.2.2.2.2.2.2.1,
          d2, List.mem_cons_of_mem d hd2, hts⟩
    · have hdup' : isDuplicateFor snapshot (combineTimestamp d route.time) = false :=
        Bool.eq_false_iff.mpr hdup
      by_cases hok : (supply k).2.2 = true
      · have hsave : (saveBooking
            (newBookingFor user route station direction shiftTag (supply k).1
              (combineTimestamp d route.time)) (supply k).2.1 (supply k).2.2
            table).2 =
            table ++ [insertedRow
              (newBookingFor user route station direction shiftTag (supply k).1
                (combineTimestamp d route.time)) (supply k).2.1] := by
          rw [hok]
          unfold saveBooking
          rw [if_pos rfl]
        rcases ih (k + 1) (table ++ [insertedRow
            (newBookingFor user route station direction shiftTag (supply k).1
              (combineTimestamp d route.time)) (supply k).2.1]) with
          ⟨newRows, htab, hprop⟩
        refine ⟨insertedRow
            (newBookingFor user route station direction shiftTag (supply k).1
              (combineTimestamp d route.time)) (supply k).2.1 :: newRows,
          ?_, ?_⟩
        · simp only [confirmBookingLoop, hdup']
          simp only [Bool.false_eq_true, if_false]
          rw [hsave, htab, List.append_assoc, List.singleton_append]
        · intro row hrow
          rcases List.mem_cons.mp hrow with hhead | htail
          · subst hhead
            exact ⟨rfl, rfl, rfl, rfl, rfl, rfl, rfl, rfl,
              d, List.mem_cons_self d rest, rfl, hdup'⟩
          · have h := hprop row htail
            rcases h.2.2.2.2.2.2.2.2 with ⟨d2, hd2, hts⟩
            exact ⟨h.1, h.2.1, h.2.2.1, h.2.2.2.1, h.2.2.2.2.1, h.2.2.2.2.2.1,
              h.2.2.2.2.2.2.1, h.2.2.2.2.2.2.2.1,
              d2, List.mem_cons_of_mem d hd2, hts⟩
      · have hok' : (supply k).2.2 = false := Bool.eq_false_iff.mpr hok
        have hsave : (saveBooking
            (newBookingFor user route station direction shiftTag (supply k).1
              (combineTimestamp d route.time)) (supply k).2.1 (supply k).2.2
            table).2 = table := by
          rw [hok']
          unfold saveBooking
          simp
        rcases ih (k + 1) table with ⟨newRows, htab, hprop⟩
        refine ⟨newRows, ?_, ?_⟩
        · simp only [confirmBookingLoop, hdup']
          simp only [Bool.false_eq_true, if_false]
          rw [hsave]
          exact htab
        · intro row hrow
          have h := hprop row hrow
          rcases h.2.2.2.2.2.2.2.2 with ⟨d2, hd2, hts⟩
          exact ⟨h.1, h.2.1, h.2.2.1, h.2.2.2.1, h.2.2.2.2.1, h.2.2.2.2.2.1,
            h.2.2.2.2.2.2.1, h.2.2.2.2.2.2.2.1,
            d2, List.mem_cons_of_mem d hd2, hts⟩

theorem confirmBookingLoop_length (user : User) (route : RouteOption)
    (station : Station) (direction : Direction) (shiftTag : Option Shift)
    (snapshot : List Booking) (supply : Nat → String × String × Bool)
    (hok : ∀ k, (supply k).2.2 = true) :
    ∀ (days : List Int) (k : Nat) (table : List BookingRow),
      (confirmBookingLoop user route station direction shiftTag snapshot supply
          k days table).table.length =
        table.length + days.countP (fun d =>
          !(isDuplicateFor snapshot (combineTimestamp d route.time))) := by
  intro days
  induction days with
  | nil => intro k table; simp [confirmBookingLoop]
  | cons d rest ih =>
    intro k table
    by_cases hdup : isDuplicateFor snapshot (combineTimestamp d route.time) = true
    · simp only [confirmBookingLoop, hdup, if_true, List.countP_cons]
      rw [ih k table]
      simp [hdup]
    · have hdup' : isDuplicateFor snapshot (combineTimestamp d route.time) = false :=
        Bool.eq_false_iff.mpr hdup
      have hsave : (saveBooking
          (newBookingFor user route station direction shiftTag (supply k).1
            (combineTimestamp d route.time)) (supply k).2.1 (supply k).2.2
          table).2 =
          table ++ [insertedRow
            (newBookingFor user route station direction shiftTag (supply k).1
              (combineTimestamp d route.time)) (supply k).2.1] := by
        rw [hok k]
        unfold saveBooking
        rw [if_pos rfl]
      simp only [confirmBookingLoop, hdup']
      simp only [Bool.false_eq_true, if_false, List.countP_cons]
      rw [hsave]
      rw [ih (k + 1) (table ++ [insertedRow
        (newBookingFor user route station direction shiftTag (supply k).1
          (combineTimestamp d route.time)) (supply k).2.1])]
      simp [hdup']
      omega

theorem mem_userRows {uid : String} {table : List BookingRow} {s : BookingRow}
    (h : s ∈ userRows uid table) : s ∈ table ∧ s.user_id = uid := by
  unfold userRows at h
  rcases List.mem_filter.mp h with ⟨h1, h2⟩
  exact ⟨h1, by simpa using h2⟩

theorem userRows_append_own {uid : String} (table : List BookingRow)
    {row : BookingRow} (hrow : row.user_id = uid) :
    userRows uid (table ++ [row]) = userRows uid table ++ [row] := by
  unfold userRows
  rw [List.filter_append]
  simp [hrow]

theorem confirmBookingLoop_invariant (user : User) (route : RouteOption)
    (station : Station) (direction : Direction) (shiftTag : Option Shift)
    (snapshot : List Booking) (supply : Nat → String × String × Bool) :
    ∀ (days : List Int) (k : Nat) (table : List BookingRow),
      days.Pairwise (fun a b => a ≠ b) →
      (userRows user.id table).Pairwise separated →
      (∀ d ∈ days,
        isDuplicateFor snapshot (combineTimestamp d route.time) = false →
        ∀ s ∈ userRows user.id table, s.status ≠ BookingStatus.CANCELLED →
          60000 ≤ (s.timestamp - combineTimestamp d route.time).natAbs) →
      (userRows user.id
        (confirmBookingLoop user route station direction shiftTag snapshot
          supply k days table).table).Pairwise separated := by
  intro days
  induction days with
  | nil =>
    intro k table _ hinv _
    simpa [confirmBookingLoop] using hinv
  | cons d rest ih =>
    intro k table hdist hinv hsep
    rcases List.pairwise_cons.mp hdist with ⟨hdne, hdist'⟩
    by_cases hdup : isDuplicateFor snapshot (combineTimestamp d route.time) = true
    · simp only [confirmBookingLoop, hdup, if_true]
      exact ih k table hdist' hinv
        fun d2 hd2 => hsep d2 (List.mem_cons_of_mem d hd2)
    · have hdup' : isDuplicateFor snapshot (combineTimestamp d route.time) = false :=
        Bool.eq_false_iff.mpr hdup
      by_cases hok : (supply k).2.2 = true
      · have hsave : (saveBooking
            (newBookingFor user route station direction shiftTag (supply k).1
              (combineTimestamp d route.time)) (supply k).2.1 (supply k).2.2
            table).2 =
            table ++ [insertedRow
              (newBookingFor user route station direction shiftTag (supply k).1
                (combineTimestamp d route.time)) (supply k).2.1] := by
          rw [hok]
          unfold saveBooking
          rw [if_pos rfl]
        have hrowuser : (insertedRow
            (newBookingFor user route station direction shiftTag (supply k).1
              (combineTimestamp d route.time)) (supply k).2.1).user_id =
            user.id := rfl
        have hrowts : (insertedRow
            (newBookingFor user route station direction shiftTag (supply k).1
              (combineTimestamp d route.time)) (supply k).2.1).timestamp =
            combineTimestamp d route.time := rfl
        have huser := userRows_append_own table hrowuser
        have hinv' : (userRows user.id (table ++ [insertedRow
            (newBookingFor user route station direction shiftTag (supply k).1
              (combineTimestamp d route.time)) (supply k).2.1])).Pairwise
            separated := by
          rw [huser, List.pairwise_append]
          refine ⟨hinv, by simp, ?_⟩
          intro a ha b hb
          rw [List.mem_singleton.mp hb]
          intro hanc _
          rw [hrowts]
          exact hsep d (List.mem_cons_self d rest) hdup' a ha hanc
        have hsep' : ∀ d2 ∈ rest,
            isDuplicateFor snapshot (combineTimestamp d2 route.time) = false →
            ∀ s ∈ userRows user.id (table ++ [insertedRow
              (newBookingFor user route station direction shiftTag (supply k).1
                (combineTimestamp d route.time)) (supply k).2.1]),
              s.status ≠ BookingStatus.CANCELLED →
              60000 ≤ (s.timestamp - combineTimestamp d2 route.time).natAbs := by
          intro d2 hd2 hdup2 s hs hsnc
          rw [huser] at hs
          rcases List.mem_append.mp hs with hs1 | hs2
          · exact hsep d2 (List.mem_cons_of_mem d hd2) hdup2 s hs1 hsnc
          · rw [List.mem_singleton.mp hs2, hrowts]
            have hne : d ≠ d2 := hdne d2 hd2
            have hdiff : combineTimestamp d route.time -
                combineTimestamp d2 route.time = (d - d2) * 86400000 := by
              unfold combineTimestamp
              ring
            rw [hdiff, Int.natAbs_mul]
            have hpos : 1 ≤ (d - d2).natAbs :=
              Int.natAbs_pos.mpr (sub_ne_zero.mpr hne)
            have h86 : (86400000 : Int).natAbs = 86400000 := rfl
            rw [h86]
            omega
        simp only [confirmBookingLoop, hdup']
        simp only [Bool.false_eq_true, if_false]
        rw [hsave]
        exact ih (k + 1) _ hdist' hinv' hsep'
      · have hok' : (supply k).2.2 = false := Bool.eq_false_iff.mpr hok
        have hsave : (saveBooking
            (newBookingFor user route station direction shiftTag (supply k).1
              (combineTimestamp d route.time)) (supply k).2.1 (supply k).2.2
            table).2 = table := by
          rw [hok']
          unfold saveBooking
          simp
        simp only [confirmBookingLoop, hdup']
        simp only [Bool.false_eq_true, if_false]
        rw [hsave]
        exact ih (k + 1) table hdist' hinv
          fun d2 hd2 => hsep d2 (List.mem_cons_of_mem d hd2)

/-- C1: in a batch submission over pairwise-distinct selected dates, a date
is skipped as a duplicate exactly when the table already holds a
non-cancelled booking of the user strictly within 60000 ms of its travel
timestamp (the created count collects exactly the remaining dates); and if
before the batch no two non-cancelled bookings of the user lay within 60000
ms of each other, the same holds after the batch. -/
theorem confirmBooking_duplicate_suppression (user : User)
    (route : RouteOption) (station : Station) (direction : Direction)
    (shiftTag : Option Shift) (supply : Nat → String × String × Bool)
    (days : List Int) (table : List BookingRow)
    (hdist : days.Pairwise (fun a b => a ≠ b))
    (hinv : (userRows user.id table).Pairwise separated) :
    (confirmBooking user route station direction shiftTag supply days
        table).failCount =
      days.countP (fun d =>
        duplicateAgainst table user.id (combineTimestamp d route.time)) ∧
    (confirmBooking user route station direction shiftTag supply days
        table).createdCount =
      days.countP (fun d =>
        !(duplicateAgainst table user.id (combineTimestamp d route.time))) ∧
    (userRows user.id (confirmBooking user route station direction shiftTag
        supply days table).table).Pairwise separated := by
  unfold confirmBooking
  have hcounts := confirmBookingLoop_counts user route station direction
    shiftTag (getUserBookings user.id (Except.ok table)) supply days 0 table
  refine ⟨?_, ?_, ?_⟩
  · rw [hcounts.1]
    apply List.countP_congr
    intro d _
    rw [isDuplicateFor_eq]
  · rw [hcounts.2]
    apply List.countP_congr
    intro d _
    rw [isDuplicateFor_eq]
  · apply confirmBookingLoop_invariant user route station direction shiftTag
      (getUserBookings user.id (Except.ok table)) supply days 0 table hdist hinv
    intro d hd hdupf s hs hsnc
    rw [isDuplicateFor_eq] at hdupf
    unfold duplicateAgainst at hdupf
    rw [List.any_eq_false] at hdupf
    have hmem := mem_userRows hs
    have hss := hdupf s hmem.1
    simp only [Bool.and_eq_true, not_and, decide_eq_true_eq] at hss
    by_contra hlt
    push_neg at hlt
    exact hss ⟨by simp [hmem.2], hlt⟩ (by simp [hsnc])

/-- C6: a confirmed batch over the selected dates processes each date
independently: the reported created and skipped-as-duplicate counts always
sum to the number of selected dates; the table after the batch is the old
table with only new rows appended (earlier bookings are never altered), every
appended row is a WAITING booking of the user whose timestamp combines one
non-duplicate selected date with the route departure time and carries no
check-in time; and when every insert succeeds, exactly one row is persisted
per created date. -/
theorem confirmBooking_batch_independent (user : User) (route : RouteOption)
    (station : Station) (direction : Direction) (shiftTag : Option Shift)
    (supply : Nat → String × String × Bool) (days : List Int)
    (table : List BookingRow) :
    (confirmBooking user route station direction shiftTag supply days
        table).createdCount +
      (confirmBooking user route station direction shiftTag supply days
        table).failCount = days.length ∧
    ∃ newRows,
      (confirmBooking user route station direction shiftTag supply days
        table).table = table ++ newRows ∧
      (∀ row ∈ newRows, row.user_id = user.id ∧
        row.user_name = some user.name ∧
        row.route_id = route.id ∧
        row.status = BookingStatus.WAITING ∧
        row.check_in_time = none ∧
        ∃ d ∈ days, row.timestamp = combineTimestamp d route.time ∧
          duplicateAgainst table user.id (combineTimestamp d route.time) =
            false) ∧
      ((∀ k, (supply k).2.2 = true) → newRows.length =
        (confirmBooking user route station direction shiftTag supply days
          table).createdCount) := by
  unfold confirmBooking
  have hcounts := confirmBookingLoop_counts user route station direction
    shiftTag (getUserBookings user.id (Except.ok table)) supply days 0 table
  rcases confirmBookingLoop_table user route station direction shiftTag
    (getUserBookings user.id (Except.ok table)) supply days 0 table with
    ⟨newRows, htab, hprop⟩
  refine ⟨?_, newRows, htab, ?_, ?_⟩
  · rw [hcounts.1, hcounts.2, Nat.add_comm]
    exact countP_self_add_not _ days
  · intro row hrow
    have h := hprop row hrow
    rcases h.2.2.2.2.2.2.2.2 with ⟨d2, hd2, hts, hdup⟩
    rw [isDuplicateFor_eq] at hdup
    exact ⟨h.1, h.2.1, h.2.2.1, h.2.2.2.2.2.2.1, h.2.2.2.2.2.2.2.1,
      d2, hd2, hts, hdup⟩
  · intro hok
    have hlen := confirmBookingLoop_length user route station direction
      shiftTag (getUserBookings user.id (Except.ok table)) supply hok days 0
      table
    rw [htab, List.length_append] at hlen
    rw [hcounts.2]
    omega

/-! Witnesses: each theorem with hypotheses applied at a concrete input. -/

theorem confirmBooking_duplicate_suppression_witness :
    List.Pairwise (fun a b => a ≠ b) ([0, 1] : List Int) ∧
    (userRows wUser.id [wRowWaiting]).Pairwise separated ∧
    ((confirmBooking wUser wRoute wStation Direction.inbound
        (some Shift.morning) wSupply [0, 1] [wRowWaiting]).failCount =
      List.countP (fun d =>
        duplicateAgainst [wRowWaiting] wUser.id
          (combineTimestamp d wRoute.time)) [0, 1] ∧
    (confirmBooking wUser wRoute wStation Direction.inbound
        (some Shift.morning) wSupply [0, 1] [wRowWaiting]).createdCount =
      List.countP (fun d =>
        !(duplicateAgainst [wRowWaiting] wUser.id
          (combineTimestamp d wRoute.time))) [0, 1] ∧
    (userRows wUser.id (confirmBooking wUser wRoute wStation Direction.inbound
        (some Shift.morning) wSupply [0, 1] [wRowWaiting]).table).Pairwise
      separated) :=
  ⟨by decide, by decide,
    confirmBooking_duplicate_suppression wUser wRoute wStation
      Direction.inbound (some Shift.morning) wSupply [0, 1] [wRowWaiting]
      (by decide) (by decide)⟩

theorem scan_transition_behavior_witness :
    wRowWaiting ∈ [wRowWaiting] ∧
    List.countP (fun s => s.id == wRowWaiting.id) [wRowWaiting] = 1 ∧
    ((wRowWaiting.route_id = "m1" →
      sameDay wRowWaiting.timestamp 27000000 = true →
      wRowWaiting.status ≠ BookingStatus.CANCELLED →
      ((wRowWaiting.status = BookingStatus.WAITING →
        (driverHandleScan "m1" wRowWaiting.id 27000000 true [wRowWaiting]).1 =
          ScanOutcome.checkedIn (wRowWaiting.user_name.getD "") ∧
        ∃ s ∈ (driverHandleScan "m1" wRowWaiting.id 27000000 true
            [wRowWaiting]).2,
          s.id = wRowWaiting.id ∧ s.status = BookingStatus.COMPLETED ∧
          s.check_in_time = some 27000000) ∧
       (wRowWaiting.status ≠ BookingStatus.WAITING →
        driverHandleScan "m1" wRowWaiting.id 27000000 true [wRowWaiting] =
          (ScanOutcome.alreadyStatus wRowWaiting.status, [wRowWaiting])))) ∧
    ((wRowWaiting.status = BookingStatus.WAITING ∨
      wRowWaiting.status = BookingStatus.BOOKED →
      (adminHandleScan wRowWaiting.id 27000000 true [wRowWaiting]).1 =
        ScanOutcome.checkedIn (wRowWaiting.user_name.getD "") ∧
      ∃ s ∈ (adminHandleScan wRowWaiting.id 27000000 true [wRowWaiting]).2,
        s.id = wRowWaiting.id ∧ s.status = BookingStatus.COMPLETED ∧
        s.check_in_time = some 27000000) ∧
     (wRowWaiting.status = BookingStatus.COMPLETED ∨
      wRowWaiting.status = BookingStatus.CANCELLED ∨
      wRowWaiting.status = BookingStatus.NOSHOW →
      adminHandleScan wRowWaiting.id 27000000 true [wRowWaiting] =
        (ScanOutcome.alreadyStatus wRowWaiting.status, [wRowWaiting])))) :=
  ⟨by decide, by decide,
    scan_transition_behavior "m1" [wRowWaiting] wRowWaiting 27000000
      (by decide) (by decide)⟩

theorem checkin_idempotent_witness :
    wRowWaiting ∈ [wRowWaiting] ∧
    List.countP (fun s => s.id == wRowWaiting.id) [wRowWaiting] = 1 ∧
    (wRowWaiting.status = BookingStatus.WAITING ∨
      wRowWaiting.status = BookingStatus.BOOKED) ∧
    ((adminHandleScan wRowWaiting.id 40000000 true
        (adminHandleScan wRowWaiting.id 30000000 true [wRowWaiting]).2).2 =
      (adminHandleScan wRowWaiting.id 30000000 true [wRowWaiting]).2 ∧
    (adminHandleScan wRowWaiting.id 40000000 true
        (adminHandleScan wRowWaiting.id 30000000 true [wRowWaiting]).2).1 =
      ScanOutcome.alreadyStatus BookingStatus.COMPLETED ∧
    ∃ s ∈ (adminHandleScan wRowWaiting.id 30000000 true [wRowWaiting]).2,
      s.id = wRowWaiting.id ∧ s.status = BookingStatus.COMPLETED ∧
      s.check_in_time = some 30000000) :=
  ⟨by decide, by decide, by decide,
    checkin_idempotent [wRowWaiting] wRowWaiting 30000000 40000000
      (by decide) (by decide) (by decide)⟩

theorem saveBooking_roundtrip_fields_witness :
    (∀ x ∈ ([] : List BookingRow), x.id ≠ "B2") ∧
    ∃ b, (getBookings (Except.ok
        (saveBooking wBooking "B2" true []).2)).find?
          (fun x => x.id == "B2") = some b ∧
      b.userId = wBooking.userId ∧ b.userName = wBooking.userName ∧
      b.routeId = wBooking.routeId ∧ b.routeName = wBooking.routeName ∧
      b.stationId = wBooking.stationId ∧ b.stationName = wBooking.stationName :=
  ⟨by simp, saveBooking_roundtrip_fields wBooking "B2" [] (by simp)⟩

theorem confirmBooking_batch_independent_witness :
    (confirmBooking wUser wRoute wStation Direction.inbound
        (some Shift.morning) wSupply [0, 1] [wRowWaiting]).createdCount +
      (confirmBooking wUser wRoute wStation Direction.inbound
        (some Shift.morning) wSupply [0, 1] [wRowWaiting]).failCount =
      ([0, 1] : List Int).length ∧
    ∃ newRows,
      (confirmBooking wUser wRoute wStation Direction.inbound
        (some Shift.morning) wSupply [0, 1] [wRowWaiting]).table =
        [wRowWaiting] ++ newRows ∧
      (∀ row ∈ newRows, row.user_id = wUser.id ∧
        row.user_name = some wUser.name ∧
        row.route_id = wRoute.id ∧
        row.status = BookingStatus.WAITING ∧
        row.check_in_time = none ∧
        ∃ d ∈ ([0, 1] : List Int),
          row.timestamp = combineTimestamp d wRoute.time ∧
          duplicateAgainst [wRowWaiting] wUser.id
            (combineTimestamp d wRoute.time) = false) ∧
      ((∀ k, (wSupply k).2.2 = true) → newRows.length =
        (confirmBooking wUser wRoute wStation Direction.inbound
          (some Shift.morning) wSupply [0, 1] [wRowWaiting]).createdCount) :=
  confirmBooking_batch_independent wUser wRoute wStation Direction.inbound
    (some Shift.morning) wSupply [0, 1] [wRowWaiting]

theorem rider_cancel_spec_witness :
    wRowWaiting ∈ [wRowWaiting] ∧
    List.countP (fun s => s.id == wRowWaiting.id) [wRowWaiting] = 1 ∧
    (wRowWaiting.status = BookingStatus.WAITING ∨
      wRowWaiting.status = BookingStatus.BOOKED) ∧
    ((∀ s ∈ riderCancelBooking wRowWaiting.id 50000000 true [wRowWaiting],
      s.id = wRowWaiting.id → s.status = BookingStatus.CANCELLED) ∧
    getRouteSeatCount wRowWaiting.route_id
        (Except.ok (riderCancelBooking wRowWaiting.id 50000000 true
          [wRowWaiting])) + 1 =
      getRouteSeatCount wRowWaiting.route_id (Except.ok [wRowWaiting]) ∧
    ∃ b ∈ getUserBookings wRowWaiting.user_id
        (Except.ok (riderCancelBooking wRowWaiting.id 50000000 true
          [wRowWaiting])),
      b.id = wRowWaiting.id ∧ b.status = BookingStatus.CANCELLED) :=
  ⟨by decide, by decide, by decide,
    rider_cancel_spec [wRowWaiting] wRowWaiting 50000000
      (by decide) (by decide) (by decide)⟩

theorem updateBookingStatus_no_validation_witness :
    wRowCancelled ∈ [wRowCancelled] ∧
    wRowCancelled.id = "C1" ∧
    ∃ s ∈ updateBookingStatus "C1" BookingStatus.COMPLETED 77 true
        [wRowCancelled],
      s.id = wRowCancelled.id ∧ s.status = BookingStatus.COMPLETED ∧
      s.check_in_time = (if BookingStatus.COMPLETED = BookingStatus.COMPLETED
        then some (77 : Int) else wRowCancelled.check_in_time) ∧
      s.timestamp = wRowCancelled.timestamp ∧
      s.user_id = wRowCancelled.user_id ∧
      s.route_id = wRowCancelled.route_id :=
  ⟨by decide, rfl,
    updateBookingStatus_no_validation [wRowCancelled] "C1"
      BookingStatus.COMPLETED 77 wRowCancelled (by decide) rfl⟩

end Shuttle
